import Mathlib

/-!
Verification of the experiment controller and evaluation engine of
`src/src/auto_memory_model/experiment.py` (class `Experiment`).

The embedding below translates the relevant methods into Lean:
Python floats are modelled as rationals (`ℚ`), Python dicts as association
lists, the external collaborators (the neural model, torch optimizers,
the filesystem and the external CoNLL scorer) as explicit parameters, and
Python exceptions as `Except` values tagged with the exception class.
-/

namespace FastCoref

/-! ## Association lists (Python `dict` as an insertion-ordered map) -/

/-- Lookup of the first binding of key `k`, as Python `d[k]` / `d.get(k)`. -/
def getVal {κ α : Type} [DecidableEq κ] : List (κ × α) → κ → Option α
  | [], _ => none
  | (a, b) :: t, k => if a = k then some b else getVal t k

/-- Python `d[k] = v`: replace the value of an existing key in place,
otherwise append the binding at the end. -/
def setKey {κ α : Type} [DecidableEq κ] : List (κ × α) → κ → α → List (κ × α)
  | [], k, v => [(k, v)]
  | (a, b) :: t, k, v => if a = k then (a, v) :: t else (a, b) :: setKey t k v

/-- Python `del d[k]` (on a dict whose keys are unique). -/
def delKey {κ α : Type} [DecidableEq κ] (d : List (κ × α)) (k : κ) : List (κ × α) :=
  d.filter (fun p => decide (p.1 ≠ k))

/-- Python `a.update(b)`: fold the bindings of `b` into `a`, `b` winning. -/
def dictUpdate {κ α : Type} [DecidableEq κ] (a b : List (κ × α)) : List (κ × α) :=
  b.foldl (fun acc kv => setKey acc kv.1 kv.2) a

theorem getVal_setKey_self {κ α : Type} [DecidableEq κ] (d : List (κ × α)) (k : κ) (v : α) :
    getVal (setKey d k v) k = some v := by
  induction d with
  | nil => simp [setKey, getVal]
  | cons p t ih =>
    obtain ⟨a, b⟩ := p
    by_cases h : a = k
    · simp [setKey, getVal, h]
    · simp [setKey, getVal, h, ih]

theorem getVal_setKey_ne {κ α : Type} [DecidableEq κ] (d : List (κ × α)) (k k2 : κ) (v : α)
    (h : k2 ≠ k) : getVal (setKey d k v) k2 = getVal d k2 := by
  induction d with
  | nil => simp [setKey, getVal, Ne.symm h]
  | cons p t ih =>
    obtain ⟨a, b⟩ := p
    by_cases ha : a = k
    · subst ha
      simp [setKey, getVal, Ne.symm h]
    · simp [setKey, getVal, ha, ih]

theorem getVal_filter_none {κ α : Type} [DecidableEq κ] (p : κ × α → Bool)
    (d : List (κ × α)) (k : κ) (h : getVal d k = none) :
    getVal (d.filter p) k = none := by
  induction d with
  | nil => simp [getVal]
  | cons q t ih =>
    obtain ⟨a, b⟩ := q
    by_cases ha : a = k
    · simp [getVal, ha] at h
    · simp only [getVal, ha, if_neg ha] at h
      by_cases hp : p (a, b) = true
      · simp [List.filter, hp, getVal, ha, ih h]
      · simp only [List.filter, Bool.not_eq_true] at hp ⊢
        simp [hp, ih h]

theorem getVal_filter_some {κ α : Type} [DecidableEq κ] (p : κ × α → Bool)
    (d : List (κ × α)) (k : κ) (v : α) (h : getVal d k = some v) (hv : p (k, v) = true) :
    getVal (d.filter p) k = some v := by
  induction d with
  | nil => simp [getVal] at h
  | cons q t ih =>
    obtain ⟨a, b⟩ := q
    by_cases ha : a = k
    · subst ha
      simp only [getVal, if_pos] at h
      rw [Option.some.injEq] at h
      subst h
      simp [List.filter, hv, getVal]
    · simp only [getVal, if_neg ha] at h
      by_cases hp : p (a, b) = true
      · simp [List.filter, hp, getVal, ha, ih h]
      · simp only [List.filter, Bool.not_eq_true] at hp ⊢
        simp [hp, ih h]

theorem getVal_delKey_ne {κ α : Type} [DecidableEq κ] (d : List (κ × α)) (k k2 : κ)
    (h : k2 ≠ k) : getVal (delKey d k) k2 = getVal d k2 := by
  cases hv : getVal d k2 with
  | none => exact getVal_filter_none _ d k2 hv
  | some v => exact getVal_filter_some _ d k2 v hv (by simp [h])

theorem getVal_eq_none_of_notMem {κ α : Type} [DecidableEq κ] (d : List (κ × α)) (k : κ)
    (h : k ∉ d.map Prod.fst) : getVal d k = none := by
  induction d with
  | nil => simp [getVal]
  | cons q t ih =>
    obtain ⟨a, b⟩ := q
    simp only [List.map_cons, List.mem_cons, not_or] at h
    have ha : ¬ a = k := fun he => h.1 he.symm
    simp [getVal, ha, ih h.2]

theorem getVal_dictUpdate_of_none {κ α : Type} [DecidableEq κ] (b : List (κ × α)) :
    ∀ (a : List (κ × α)) (k : κ), getVal b k = none →
      getVal (dictUpdate a b) k = getVal a k := by
  induction b with
  | nil => intro a k _; rfl
  | cons q t ih =>
    intro a k h
    obtain ⟨k0, v0⟩ := q
    by_cases hk : k0 = k
    · simp [getVal, hk] at h
    · simp only [getVal, if_neg hk] at h
      simpa [dictUpdate, List.foldl_cons, getVal_setKey_ne a k0 k v0 (fun he => hk he.symm)]
        using ih (setKey a k0 v0) k h

theorem getVal_dictUpdate_of_some {κ α : Type} [DecidableEq κ] (b : List (κ × α)) :
    ∀ (a : List (κ × α)) (k : κ) (v : α), (b.map Prod.fst).Nodup →
      getVal b k = some v → getVal (dictUpdate a b) k = some v := by
  induction b with
  | nil => intro a k v _ h; simp [getVal] at h
  | cons q t ih =>
    intro a k v hnd h
    obtain ⟨k0, v0⟩ := q
    simp only [List.map_cons, List.nodup_cons] at hnd
    by_cases hk : k0 = k
    · subst hk
      simp only [getVal, if_pos] at h
      rw [Option.some.injEq] at h
      subst h
      have ht : getVal t k0 = none := getVal_eq_none_of_notMem t k0 hnd.1
      have := getVal_dictUpdate_of_none t (setKey a k0 v0) k0 ht
      simpa [dictUpdate, List.foldl_cons, getVal_setKey_self a k0 v0] using this
    · simp only [getVal, if_neg hk] at h
      simpa [dictUpdate, List.foldl_cons] using ih (setKey a k0 v0) k v hnd.2 h

/-! ## Substring containment (Python `pat in key` on strings) -/

/-- Whether `pat` occurs at the head of `hay`. -/
def charsLeadWith : List Char → List Char → Bool
  | [], _ => true
  | _ :: _, [] => false
  | p :: ps, h :: hs => p == h && charsLeadWith ps hs

/-- Whether `pat` occurs anywhere in `hay`. -/
def charsContain (pat : List Char) : List Char → Bool
  | [] => pat.isEmpty
  | h :: t => charsLeadWith pat (h :: t) || charsContain pat t

/-- Python `pat in hay` for strings: substring containment. -/
def strHasSub (hay pat : String) : Bool :=
  charsContain pat.data hay.data

/-! ## Training metadata

`self.train_info = \x7b'val_perf': 0.0, 'global_steps': 0, 'num_stuck_evals': 0\x7d`
(experiment.py line 54). -/

/-- The `train_info` record of the experiment. -/
structure TrainInfo where
  val_perf : ℚ
  global_steps : ℕ
  num_stuck_evals : ℕ
deriving DecidableEq

/-! ## Python runtime values at the `use_conll` comparison site

Line 373 of experiment.py compares `cluster_threshold` (an `int` passed by every
caller of `evaluate_model`) with `self.canonical_cluster_threshold`, which is the
dataset-name-keyed `dict` `CANONICAL_CLUSTER_THRESHOLD` (lines 22, 35-38, and the
subscripted uses at lines 269 and 430). Python `==` between an `int` and a `dict`
is `False`. The universe below covers exactly the two runtime types met there. -/

/-- A Python value that is either an `int` or a `str`-keyed dict of `int`s. -/
inductive PyVal where
  | int : ℤ → PyVal
  | dictIntVals : List (String × ℤ) → PyVal

/-- Python mapping equality restricted to unique-keyed dicts: both dicts agree
on every binding of the other. -/
def pyDictEq (a b : List (String × ℤ)) : Bool :=
  a.all (fun kv => getVal b kv.1 == some kv.2) && b.all (fun kv => getVal a kv.1 == some kv.2)

/-- Python `==` on the value universe above: same-type values compare
structurally, an `int` never equals a `dict`. -/
def pyEq : PyVal → PyVal → Bool
  | PyVal.int a, PyVal.int b => a == b
  | PyVal.dictIntVals a, PyVal.dictIntVals b => pyDictEq a b
  | _, _ => false

/-- Line 373: `use_conll = (cluster_threshold == self.canonical_cluster_threshold)`. -/
def use_conll_flag (cluster_threshold : ℤ) (canonical : List (String × ℤ)) : Bool :=
  pyEq (PyVal.int cluster_threshold) (PyVal.dictIntVals canonical)

/-- Lines 375-377: `path_exists_bool` is `False` unless both `conll_scorer` and
`conll_data_dir` are configured, in which case both paths must exist on disk.
Configuration presence and filesystem existence are Boolean inputs. -/
def path_exists_flag (scorerConfigured dataDirConfigured scorerExists dataDirExists : Bool) :
    Bool :=
  if scorerConfigured && dataDirConfigured then scorerExists && dataDirExists else false

/-! ## The external-scorer stage of `evaluate_model` (lines 356-399) -/

/-- A Python exception class, tagging a raised exception. -/
inductive PyExc where
  | typeError
  | attributeError
  | osError
  | valueError
deriving DecidableEq

/-- One metric block of `result_dict`: the internally computed
recall/precision/fscore for MUC, B-cubed or CEAFE (lines 362-365).
The source key `recall` is spelled `recallScore` because `recall` is a
reserved command name in this Lean environment. -/
structure MetricScores where
  recallScore : ℚ
  precision : ℚ
  fscore : ℚ
deriving DecidableEq

/-- The `result_dict` record returned by `evaluate_model` (lines 357-368). -/
structure ResultDict where
  muc : MetricScores
  bcub : MetricScores
  ceafe : MetricScores
  fscore : ℚ
deriving DecidableEq

/-- One metric entry of the external scorer's output `conll_results`
(keys `"r"`, `"p"`, `"f"`, lines 388-392). `evaluate_conll` itself lives in
`coref_utils.conll`, outside src/; only its result shape is needed here. -/
structure ConllMetric where
  r : ℚ
  p : ℚ
  f : ℚ
deriving DecidableEq

/-- The external scorer's result record: one entry per metric
(`muc`, `bcub`, `ceafe`). -/
structure ConllResults where
  muc : ConllMetric
  bcub : ConllMetric
  ceafe : ConllMetric
deriving DecidableEq

/-- Python `round(x, 1)`, modelled as rounding `x * 10` to the nearest integer
(the tie-breaking direction is irrelevant to every claim). -/
def round1 (q : ℚ) : ℚ :=
  ((⌊q * 10 + 1 / 2⌋ : ℤ) : ℚ) / 10

/-- Lines 386-393: overwrite the three per-metric entries of `result_dict` with
the external scorer's numbers and replace the aggregate `fscore` by the mean of
the external per-metric f-scores. -/
def applyConllResults (cr : ConllResults) : ResultDict :=
  { muc := { recallScore := round1 cr.muc.r, precision := round1 cr.muc.p,
             fscore := round1 cr.muc.f },
    bcub := { recallScore := round1 cr.bcub.r, precision := round1 cr.bcub.p,
              fscore := round1 cr.bcub.f },
    ceafe := { recallScore := round1 cr.ceafe.r, precision := round1 cr.ceafe.p,
               fscore := round1 cr.ceafe.f },
    fscore := round1 ((cr.muc.f + cr.bcub.f + cr.ceafe.f) / 3) }

/-- Lines 379-399: the `try`/`except AttributeError` around the guarded external
scorer call. `gate` is the value of `final_eval and use_conll and path_exists_bool`;
`scorerRun` is the outcome of `evaluate_conll` (a result, or a raised exception of
some class); `internal` is the internally computed `result_dict`. Only an
`AttributeError` is caught (line 398); any other exception class propagates. -/
def conllTryBlock (gate : Bool) (scorerRun : Except PyExc ConllResults)
    (internal : ResultDict) : Except PyExc ResultDict :=
  if gate then
    match scorerRun with
    | Except.ok cr => Except.ok (applyConllResults cr)
    | Except.error PyExc.attributeError => Except.ok internal
    | Except.error e => Except.error e
  else Except.ok internal

/-- Lines 371-399 assembled: compute `use_conll` and `path_exists_bool` and run
the guarded scorer stage. -/
def conllStage (final_eval : Bool) (cluster_threshold : ℤ) (canonical : List (String × ℤ))
    (scorerConfigured dataDirConfigured scorerExists dataDirExists : Bool)
    (scorerRun : Except PyExc ConllResults) (internal : ResultDict) :
    Except PyExc ResultDict :=
  conllTryBlock
    (final_eval && use_conll_flag cluster_threshold canonical
      && path_exists_flag scorerConfigured dataDirConfigured scorerExists dataDirExists)
    scorerRun internal

theorem use_conll_flag_false (cluster_threshold : ℤ) (canonical : List (String × ℤ)) :
    use_conll_flag cluster_threshold canonical = false := rfl

/-- A sample internally computed `result_dict`. -/
def sampleRD : ResultDict :=
  { muc := { recallScore := 1, precision := 1, fscore := 1 },
    bcub := { recallScore := 1, precision := 1, fscore := 1 },
    ceafe := { recallScore := 1, precision := 1, fscore := 1 },
    fscore := 1 }

/-- A sample external-scorer result whose numbers differ from `sampleRD`. -/
def sampleConll : ConllResults :=
  { muc := { r := 50, p := 50, f := 50 },
    bcub := { r := 50, p := 50, f := 50 },
    ceafe := { r := 50, p := 50, f := 50 } }

/-- Claim C1: in final evaluation with the dataset's canonical cluster threshold
and with the external scorer and reference annotations configured and existing
on disk, the external scorer is invoked and its results replace the internal
ones. The code violates this: line 373 compares the integer threshold with the
whole canonical-threshold dict, so `use_conll` is always `False` and the scorer
stage always returns the internal metrics untouched. The second conjunct
evaluates the stage at the claimed failing input: final evaluation of
`litbank` at its canonical threshold 1, everything configured and existing,
a scorer run that would succeed with different numbers — yet the internal
result is returned. -/
theorem C1_external_scorer_never_invoked :
    (∀ (final_eval : Bool) (cluster_threshold : ℤ) (canonical : List (String × ℤ))
       (sc dc se de : Bool) (scorerRun : Except PyExc ConllResults) (internal : ResultDict),
       conllStage final_eval cluster_threshold canonical sc dc se de scorerRun internal
         = Except.ok internal) ∧
    conllStage true 1 [("litbank", 1)] true true true true (Except.ok sampleConll) sampleRD
      = Except.ok sampleRD ∧
    applyConllResults sampleConll ≠ sampleRD := by
  refine ⟨?_, ?_, ?_⟩
  · intro fe ct canon sc dc se de run internal
    simp [conllStage, use_conll_flag_false, conllTryBlock]
  · rfl
  · intro h
    have hf := congrArg ResultDict.fscore h
    simp only [applyConllResults, sampleConll, sampleRD, round1] at hf
    norm_num at hf

/-- Claim C7 as stated: every failure of the external scorer (any exception
class raised while invoking it or parsing its output) is caught by the
`try`/`except` of lines 379-399, and the internal metrics are returned. -/
def everyScorerFailureCaught : Prop :=
  ∀ (gate : Bool) (k : PyExc) (internal : ResultDict),
    conllTryBlock gate (Except.error k) internal = Except.ok internal

/-- Claim C7, counterexample: the handler catches only `AttributeError`
(line 398). With the guard satisfied, a scorer failure raised as an `OSError`
(e.g. the scorer subprocess failing to launch) propagates out of the stage
instead of falling back to the internal metrics. -/
theorem C7_scorer_catch_counterexample : ¬ everyScorerFailureCaught := by
  intro h
  have := h true PyExc.osError sampleRD
  simp [conllTryBlock] at this

/-- Claim C7, amended: a scorer failure raised as an `AttributeError` — the
class produced when parsing the scorer's output fails — is caught and the
evaluation returns the internally computed metrics; a failure of any other
exception class propagates uncaught. (Additionally, whenever the guard is
false the internal metrics are returned untouched.) -/
theorem C7_attribute_error_caught (gate : Bool) (internal : ResultDict) :
    conllTryBlock gate (Except.error PyExc.attributeError) internal = Except.ok internal ∧
    (∀ k : PyExc, k ≠ PyExc.attributeError →
      conllTryBlock true (Except.error k) internal = Except.error k) := by
  constructor
  · cases gate <;> rfl
  · intro k hk
    cases k
    · rfl
    · exact absurd rfl hk
    · rfl
    · rfl

/-- Claim C7 witness: the amended theorem at a concrete gate, result record and
non-`AttributeError` exception class. -/
theorem C7_attribute_error_caught_witness :
    conllTryBlock true (Except.error PyExc.attributeError) sampleRD = Except.ok sampleRD ∧
    conllTryBlock true (Except.error PyExc.osError) sampleRD = Except.error PyExc.osError :=
  ⟨(C7_attribute_error_caught true sampleRD).1,
   (C7_attribute_error_caught true sampleRD).2 PyExc.osError (by decide)⟩

/-! ## The training step `handle_example` (lines 215-238)

The optimizer dict `self.optimizer` has key `'mem'` always and key `'doc'`
exactly when fine-tuning is enabled (lines 173, 190); `keys` below is its key
list. The torch collaborators (loss scaling, backward, clipping, optimizer and
scheduler stepping, scaler update) are opaque functions over abstract carrier
types `P` (model parameters), `G` (gradients), `O` (optimizer state),
`S` (scheduler state), `SC` (scaler state); `handle_example` records which of
them it invokes in an effect trace. -/

/-- Name of an optimizer/scheduler parameter group (`'mem'` / `'doc'`). -/
inductive OptKey where
  | mem
  | doc
deriving DecidableEq

/-- The two parameter collections returned by `model.get_params()` (line 212)
and clipped at lines 230-231. -/
inductive ClipGroup where
  | encoder
  | task
deriving DecidableEq

/-- One torch-level operation performed during a training step. -/
inductive Effect where
  | zeroGrad : OptKey → Effect
  | backward : Effect
  | unscale : OptKey → Effect
  | clipGradNorm : ClipGroup → ℚ → Effect
  | optStep : OptKey → Effect
  | schedStep : OptKey → Effect
  | scalerUpdate : Effect
deriving DecidableEq

/-- The mutable torch-side state touched by a training step. -/
structure TState (P G O S SC : Type) where
  params : P
  grads : G
  optState : OptKey → O
  schedState : OptKey → S
  scalerState : SC

/-- The external torch operations, as opaque state transformers. -/
structure TorchOps (P G O S SC : Type) where
  zeroGrad : OptKey → G → G
  scaleBackward : ℚ → SC → G → G
  unscale : OptKey → SC → G → G
  clipNorm : ClipGroup → ℚ → G → G
  scalerStep : OptKey → SC → G → O → P → P × O
  schedStep : OptKey → S → S
  scalerUpdate : SC → SC

/-- Lines 215-238. Increment `global_steps`, zero every optimizer's gradients,
run the forward pass (its `total` loss is the `loss` argument; `none` models
Python `None`). On an absent loss return immediately; otherwise backpropagate
the scaled loss, unscale each optimizer's gradients, clip the encoder
parameters and the task parameters (both against `max_gradient_norm`,
lines 230-231), step every optimizer and its scheduler, and update the scaler.
Returns the new step count, the new torch state, `example_loss`
(`total_loss.item()` or `None`), and the effect trace. -/
def handle_example {P G O S SC : Type} (ops : TorchOps P G O S SC) (keys : List OptKey)
    (max_gradient_norm : ℚ) (loss : Option ℚ) (gsteps : ℕ) (st : TState P G O S SC) :
    ℕ × TState P G O S SC × Option ℚ × List Effect :=
  let zeroed : TState P G O S SC :=
    { st with grads := keys.foldl (fun g k => ops.zeroGrad k g) st.grads }
  let zeffs := keys.map Effect.zeroGrad
  match loss with
  | none => (gsteps + 1, zeroed, none, zeffs)
  | some l =>
    let s1 := { zeroed with grads := ops.scaleBackward l zeroed.scalerState zeroed.grads }
    let s2 := { s1 with grads := keys.foldl (fun g k => ops.unscale k s1.scalerState g) s1.grads }
    let s3 := { s2 with grads := ops.clipNorm ClipGroup.encoder max_gradient_norm s2.grads }
    let s4 := { s3 with grads := ops.clipNorm ClipGroup.task max_gradient_norm s3.grads }
    let s5 := keys.foldl (fun s k =>
        let pr := ops.scalerStep k s.scalerState s.grads (s.optState k) s.params
        { s with params := pr.1,
                 optState := fun k2 => if k2 = k then pr.2 else s.optState k2,
                 schedState := fun k2 =>
                   if k2 = k then ops.schedStep k (s.schedState k2) else s.schedState k2 }) s4
    let s6 := { s5 with scalerState := ops.scalerUpdate s5.scalerState }
    (gsteps + 1, s6, some l,
      zeffs ++ [Effect.backward] ++ keys.map Effect.unscale
        ++ [Effect.clipGradNorm ClipGroup.encoder max_gradient_norm,
            Effect.clipGradNorm ClipGroup.task max_gradient_norm]
        ++ (keys.map (fun k => [Effect.optStep k, Effect.schedStep k])).flatten
        ++ [Effect.scalerUpdate])

theorem handle_example_fst {P G O S SC : Type} (ops : TorchOps P G O S SC)
    (keys : List OptKey) (mgn : ℚ) (loss : Option ℚ) (gsteps : ℕ) (st : TState P G O S SC) :
    (handle_example ops keys mgn loss gsteps st).1 = gsteps + 1 := by
  cases loss <;> rfl

theorem handle_example_exLoss {P G O S SC : Type} (ops : TorchOps P G O S SC)
    (keys : List OptKey) (mgn : ℚ) (loss : Option ℚ) (gsteps : ℕ) (st : TState P G O S SC) :
    (handle_example ops keys mgn loss gsteps st).2.2.1 = loss := by
  cases loss <;> rfl

/-- A concrete instantiation of the torch collaborators over `ℕ` carriers,
used to run the embedding on concrete inputs. -/
def trivOps : TorchOps ℕ ℕ ℕ ℕ ℕ where
  zeroGrad := fun _ _ => 0
  scaleBackward := fun _ _ g => g + 1
  unscale := fun _ _ g => g + 1
  clipNorm := fun _ _ g => g + 1
  scalerStep := fun _ _ _ o p => (p + 1, o + 1)
  schedStep := fun _ s => s + 1
  scalerUpdate := fun sc => sc + 1

/-- A concrete starting torch state over `ℕ` carriers. -/
def trivSt : TState ℕ ℕ ℕ ℕ ℕ :=
  { params := 0, grads := 0, optState := fun _ => 0, schedState := fun _ => 0, scalerState := 0 }

/-- Claim C3: when the forward pass returns an absent total loss,
`handle_example` still increments `global_steps` by 1 but performs no backward
pass, no gradient clipping, no optimizer step, no scheduler step and no scaler
update, so the model parameters and the optimizer, scheduler and scaler state
are unchanged (only the gradients were zeroed). -/
theorem C3_absent_loss_frame {P G O S SC : Type} (ops : TorchOps P G O S SC)
    (keys : List OptKey) (mgn : ℚ) (gsteps : ℕ) (st : TState P G O S SC)
    (loss : Option ℚ) (h : loss = none) :
    (handle_example ops keys mgn loss gsteps st).1 = gsteps + 1 ∧
    (handle_example ops keys mgn loss gsteps st).2.1.params = st.params ∧
    (handle_example ops keys mgn loss gsteps st).2.1.optState = st.optState ∧
    (handle_example ops keys mgn loss gsteps st).2.1.schedState = st.schedState ∧
    (handle_example ops keys mgn loss gsteps st).2.1.scalerState = st.scalerState ∧
    (∀ e ∈ (handle_example ops keys mgn loss gsteps st).2.2.2,
      Effect.backward ≠ e ∧ (∀ g n, Effect.clipGradNorm g n ≠ e) ∧
      (∀ k, Effect.optStep k ≠ e ∧ Effect.schedStep k ≠ e) ∧ Effect.scalerUpdate ≠ e) := by
  subst h
  refine ⟨rfl, rfl, rfl, rfl, rfl, ?_⟩
  intro e he
  simp only [handle_example, List.mem_map] at he
  obtain ⟨k, hk, rfl⟩ := he
  exact ⟨fun h2 => Effect.noConfusion h2, fun g n h2 => Effect.noConfusion h2,
    fun k2 => ⟨fun h2 => Effect.noConfusion h2, fun h2 => Effect.noConfusion h2⟩,
    fun h2 => Effect.noConfusion h2⟩

/-- Claim C3 witness: the frame property at a concrete absent-loss step. -/
theorem C3_absent_loss_frame_witness :
    (handle_example trivOps [OptKey.mem] 1 none 5 trivSt).1 = 5 + 1 ∧
    (handle_example trivOps [OptKey.mem] 1 none 5 trivSt).2.1.params = trivSt.params ∧
    (handle_example trivOps [OptKey.mem] 1 none 5 trivSt).2.1.optState = trivSt.optState ∧
    (handle_example trivOps [OptKey.mem] 1 none 5 trivSt).2.1.schedState = trivSt.schedState ∧
    (handle_example trivOps [OptKey.mem] 1 none 5 trivSt).2.1.scalerState = trivSt.scalerState ∧
    (∀ e ∈ (handle_example trivOps [OptKey.mem] 1 none 5 trivSt).2.2.2,
      Effect.backward ≠ e ∧ (∀ g n, Effect.clipGradNorm g n ≠ e) ∧
      (∀ k, Effect.optStep k ≠ e ∧ Effect.schedStep k ≠ e) ∧ Effect.scalerUpdate ≠ e) :=
  C3_absent_loss_frame trivOps [OptKey.mem] 1 5 trivSt none rfl

/-- The (group, norm) pairs of the clipping operations performed by a
successful training step, as a function of the single configured attribute
`max_gradient_norm`. -/
def clipPairs (mgn : ℚ) : List (ClipGroup × ℚ) :=
  ((handle_example trivOps [OptKey.mem] mgn (some 0) 0 trivSt).2.2.2).filterMap
    (fun e => match e with
      | Effect.clipGradNorm g n => some (g, n)
      | _ => none)

/-- Claim C5 as stated, final clause: each parameter group is clipped against
its own configured maximum norm, i.e. the two groups' clip norms are separately
configurable — some configuration makes them differ. -/
def perGroupConfiguredClipNorms : Prop :=
  ∃ mgn : ℚ, getVal (clipPairs mgn) ClipGroup.encoder ≠ getVal (clipPairs mgn) ClipGroup.task

/-- Claim C5, counterexample: there is a single configured norm
`self.max_gradient_norm`, used for both clip calls (lines 230-231), so no
configuration gives the encoder group and the task group different norms. -/
theorem C5_clip_counterexample : ¬ perGroupConfiguredClipNorms := by
  rintro ⟨mgn, h⟩
  exact h rfl

/-- Claim C5, amended: in every training step that produced a usable loss, the
encoder parameter group and the task parameter group are clipped independently
(two separate clip operations, one per group), but each against the same single
configured maximum norm `max_gradient_norm`. -/
theorem C5_clip_independent_shared_norm {P G O S SC : Type} (ops : TorchOps P G O S SC)
    (keys : List OptKey) (mgn l : ℚ) (gsteps : ℕ) (st : TState P G O S SC) :
    Effect.clipGradNorm ClipGroup.encoder mgn
        ∈ (handle_example ops keys mgn (some l) gsteps st).2.2.2 ∧
    Effect.clipGradNorm ClipGroup.task mgn
        ∈ (handle_example ops keys mgn (some l) gsteps st).2.2.2 ∧
    (∀ g n, Effect.clipGradNorm g n ∈ (handle_example ops keys mgn (some l) gsteps st).2.2.2 →
      n = mgn) := by
  refine ⟨?_, ?_, ?_⟩
  · simp [handle_example]
  · simp [handle_example]
  · intro g n hmem
    simp [handle_example] at hmem
    rcases hmem with ⟨_, h2⟩ | ⟨_, h2⟩ <;> exact h2

/-! ## Periodic evaluation (lines 263-290) and the loop body (lines 214-259) -/

/-- An observable action of the periodic evaluation: evaluating one dataset at
a cluster threshold, saving the "best" checkpoint (line 280), or saving the
"last" checkpoint (line 286). -/
inductive EvalEffect where
  | evalDataset : String → ℤ → EvalEffect
  | saveBest : EvalEffect
  | saveLast : EvalEffect
deriving DecidableEq

/-- `self.canonical_cluster_threshold[dataset]` (line 269). The source raises
`KeyError` for a dataset missing from the dict; theorems below hypothesise the
dataset is present, under which the default is never taken. -/
def thOf (canonical : List (String × ℤ)) (d : String) : ℤ :=
  (getVal canonical d).getD 0

/-- Line 273: the arithmetic mean of the per-dataset dev fscores, each dataset
evaluated at its canonical cluster threshold. `evalF d t` is the `'fscore'`
entry returned by `evaluate_model(dataset=d, cluster_threshold=t)`. -/
def meanDevFscore (canonical : List (String × ℤ)) (datasets : List String)
    (evalF : String → ℤ → ℚ) : ℚ :=
  (datasets.map (fun d => evalF d (thOf canonical d))).sum / (datasets.length : ℚ)

/-- Lines 263-290, `periodic_model_eval`: evaluate every dev dataset at its
canonical threshold, average the fscores, reset `num_stuck_evals` and update
`val_perf` and save the "best" checkpoint exactly when the mean strictly
improves on `val_perf`, otherwise increment `num_stuck_evals`; then save the
"last" checkpoint whenever `to_save_model` is set. Returns the updated
`train_info`, the mean fscore, and the trace of performed actions. -/
def periodic_model_eval (canonical : List (String × ℤ)) (datasets : List String)
    (evalF : String → ℤ → ℚ) (to_save_model : Bool) (ti : TrainInfo) :
    TrainInfo × ℚ × List EvalEffect :=
  let fscore := meanDevFscore canonical datasets evalF
  let evalEffs := datasets.map (fun d => EvalEffect.evalDataset d (thOf canonical d))
  let saveLastEffs := if to_save_model then [EvalEffect.saveLast] else []
  if ti.val_perf < fscore then
    ({ ti with num_stuck_evals := 0, val_perf := fscore }, fscore,
      evalEffs ++ [EvalEffect.saveBest] ++ saveLastEffs)
  else
    ({ ti with num_stuck_evals := ti.num_stuck_evals + 1 }, fscore,
      evalEffs ++ saveLastEffs)

/-- The training-loop configuration attributes used in lines 214-259.
`eval_per_k_steps = 0` models a falsy `self.eval_per_k_steps`;
`num_training_steps` is set to `eval_per_k_steps * max_evals` at line 122. -/
structure LoopConfig where
  patience : ℕ
  eval_per_k_steps : ℕ
  num_training_steps : ℕ
  max_evals : ℕ
  update_frequency : ℕ
  to_save_model : Bool
  max_gradient_norm : ℚ

/-- Lines 243-246: the progress record formats `example_loss` with a float
format specifier. Formatting a float succeeds; formatting Python `None`
raises `TypeError`. -/
def emitProgress (example_loss : Option ℚ) : Except PyExc Unit :=
  match example_loss with
  | some _ => Except.ok ()
  | none => Except.error PyExc.typeError

/-- The outcome of one pass of the inner training loop body over one example. -/
structure BodyResult (P G O S SC : Type) where
  st : TState P G O S SC
  ti : TrainInfo
  stop : Bool
  evalRan : Bool
  effs : List Effect
  evalEffs : List EvalEffect

/-- Lines 214-259, the body of `for cur_example in train_data`: run
`handle_example`, emit the progress record every `update_frequency` steps
(raising `TypeError` when the example loss is absent), and every
`eval_per_k_steps` global steps run the periodic evaluation and stop when
`num_stuck_evals` has reached the patience or `global_steps` has reached
`num_training_steps`. A raised exception propagates out of `train`. -/
def trainLoopBody {P G O S SC : Type} (ops : TorchOps P G O S SC) (keys : List OptKey)
    (canonical : List (String × ℤ)) (datasets : List String) (evalF : String → ℤ → ℚ)
    (cfg : LoopConfig) (loss : Option ℚ) (st : TState P G O S SC) (ti : TrainInfo) :
    Except PyExc (BodyResult P G O S SC) :=
  let hr := handle_example ops keys cfg.max_gradient_norm loss ti.global_steps st
  let ti1 : TrainInfo := { ti with global_steps := hr.1 }
  match (if ti1.global_steps % cfg.update_frequency = 0 then emitProgress hr.2.2.1
         else Except.ok ()) with
  | Except.error e => Except.error e
  | Except.ok _ =>
    if cfg.eval_per_k_steps ≠ 0 ∧ ti1.global_steps % cfg.eval_per_k_steps = 0 then
      let er := periodic_model_eval canonical datasets evalF cfg.to_save_model ti1
      Except.ok
        { st := hr.2.1, ti := er.1,
          stop := decide (cfg.patience ≤ er.1.num_stuck_evals)
            || decide (cfg.num_training_steps ≤ er.1.global_steps),
          evalRan := true, effs := hr.2.2.2, evalEffs := er.2.2 }
    else
      Except.ok
        { st := hr.2.1, ti := ti1, stop := false, evalRan := false,
          effs := hr.2.2.2, evalEffs := [] }

theorem periodic_global_steps (canonical : List (String × ℤ)) (datasets : List String)
    (evalF : String → ℤ → ℚ) (to_save_model : Bool) (ti : TrainInfo) :
    (periodic_model_eval canonical datasets evalF to_save_model ti).1.global_steps
      = ti.global_steps := by
  by_cases h : ti.val_perf < meanDevFscore canonical datasets evalF <;>
    simp [periodic_model_eval, h]

theorem periodic_stuck_eq (canonical : List (String × ℤ)) (datasets : List String)
    (evalF : String → ℤ → ℚ) (to_save_model : Bool) (ti : TrainInfo) :
    (periodic_model_eval canonical datasets evalF to_save_model ti).1.num_stuck_evals
      = if ti.val_perf < meanDevFscore canonical datasets evalF then 0
        else ti.num_stuck_evals + 1 := by
  by_cases h : ti.val_perf < meanDevFscore canonical datasets evalF <;>
    simp [periodic_model_eval, h]

theorem periodic_val_perf_eq (canonical : List (String × ℤ)) (datasets : List String)
    (evalF : String → ℤ → ℚ) (to_save_model : Bool) (ti : TrainInfo) :
    (periodic_model_eval canonical datasets evalF to_save_model ti).1.val_perf
      = if ti.val_perf < meanDevFscore canonical datasets evalF
        then meanDevFscore canonical datasets evalF else ti.val_perf := by
  by_cases h : ti.val_perf < meanDevFscore canonical datasets evalF <;>
    simp [periodic_model_eval, h]

theorem periodic_fscore_eq (canonical : List (String × ℤ)) (datasets : List String)
    (evalF : String → ℤ → ℚ) (to_save_model : Bool) (ti : TrainInfo) :
    (periodic_model_eval canonical datasets evalF to_save_model ti).2.1
      = meanDevFscore canonical datasets evalF := by
  by_cases h : ti.val_perf < meanDevFscore canonical datasets evalF <;>
    simp [periodic_model_eval, h]

theorem periodic_saveBest_iff (canonical : List (String × ℤ)) (datasets : List String)
    (evalF : String → ℤ → ℚ) (to_save_model : Bool) (ti : TrainInfo) :
    EvalEffect.saveBest ∈ (periodic_model_eval canonical datasets evalF to_save_model ti).2.2
      ↔ ti.val_perf < meanDevFscore canonical datasets evalF := by
  by_cases h : ti.val_perf < meanDevFscore canonical datasets evalF <;>
    by_cases hs : to_save_model <;> simp [periodic_model_eval, h, hs]

theorem periodic_saveLast_iff (canonical : List (String × ℤ)) (datasets : List String)
    (evalF : String → ℤ → ℚ) (to_save_model : Bool) (ti : TrainInfo) :
    EvalEffect.saveLast ∈ (periodic_model_eval canonical datasets evalF to_save_model ti).2.2
      ↔ to_save_model = true := by
  by_cases h : ti.val_perf < meanDevFscore canonical datasets evalF <;>
    by_cases hs : to_save_model <;> simp [periodic_model_eval, h, hs]

theorem periodic_evalDataset_mem (canonical : List (String × ℤ)) (datasets : List String)
    (evalF : String → ℤ → ℚ) (to_save_model : Bool) (ti : TrainInfo) (d : String) (t : ℤ)
    (hd : d ∈ datasets) (ht : getVal canonical d = some t) :
    EvalEffect.evalDataset d t
      ∈ (periodic_model_eval canonical datasets evalF to_save_model ti).2.2 := by
  have hth : thOf canonical d = t := by simp [thOf, ht]
  by_cases h : ti.val_perf < meanDevFscore canonical datasets evalF <;>
    simp [periodic_model_eval, h] <;>
    exact ⟨d, hd, rfl, hth⟩

theorem trainLoopBody_some_eval {P G O S SC : Type} (ops : TorchOps P G O S SC)
    (keys : List OptKey) (canonical : List (String × ℤ)) (datasets : List String)
    (evalF : String → ℤ → ℚ) (cfg : LoopConfig) (l : ℚ) (st : TState P G O S SC)
    (ti : TrainInfo)
    (h : cfg.eval_per_k_steps ≠ 0 ∧ (ti.global_steps + 1) % cfg.eval_per_k_steps = 0) :
    trainLoopBody ops keys canonical datasets evalF cfg (some l) st ti =
      Except.ok
        { st := (handle_example ops keys cfg.max_gradient_norm (some l) ti.global_steps st).2.1,
          ti := (periodic_model_eval canonical datasets evalF cfg.to_save_model
                  { ti with global_steps := ti.global_steps + 1 }).1,
          stop := decide (cfg.patience ≤ (periodic_model_eval canonical datasets evalF
                    cfg.to_save_model
                    { ti with global_steps := ti.global_steps + 1 }).1.num_stuck_evals)
            || decide (cfg.num_training_steps ≤ (periodic_model_eval canonical datasets evalF
                    cfg.to_save_model
                    { ti with global_steps := ti.global_steps + 1 }).1.global_steps),
          evalRan := true,
          effs := (handle_example ops keys cfg.max_gradient_norm (some l) ti.global_steps st).2.2.2,
          evalEffs := (periodic_model_eval canonical datasets evalF cfg.to_save_model
                  { ti with global_steps := ti.global_steps + 1 }).2.2 } := by
  simp only [trainLoopBody, handle_example_fst, handle_example_exLoss, emitProgress, ite_self]
  rw [if_pos h]

theorem trainLoopBody_some_noeval {P G O S SC : Type} (ops : TorchOps P G O S SC)
    (keys : List OptKey) (canonical : List (String × ℤ)) (datasets : List String)
    (evalF : String → ℤ → ℚ) (cfg : LoopConfig) (l : ℚ) (st : TState P G O S SC)
    (ti : TrainInfo)
    (h : ¬ (cfg.eval_per_k_steps ≠ 0 ∧ (ti.global_steps + 1) % cfg.eval_per_k_steps = 0)) :
    trainLoopBody ops keys canonical datasets evalF cfg (some l) st ti =
      Except.ok
        { st := (handle_example ops keys cfg.max_gradient_norm (some l) ti.global_steps st).2.1,
          ti := { ti with global_steps := ti.global_steps + 1 },
          stop := false, evalRan := false,
          effs := (handle_example ops keys cfg.max_gradient_norm (some l) ti.global_steps st).2.2.2,
          evalEffs := [] } := by
  simp only [trainLoopBody, handle_example_fst, handle_example_exLoss, emitProgress, ite_self]
  rw [if_neg h]

theorem trainLoopBody_none_crash {P G O S SC : Type} (ops : TorchOps P G O S SC)
    (keys : List OptKey) (canonical : List (String × ℤ)) (datasets : List String)
    (evalF : String → ℤ → ℚ) (cfg : LoopConfig) (st : TState P G O S SC) (ti : TrainInfo)
    (h : (ti.global_steps + 1) % cfg.update_frequency = 0) :
    trainLoopBody ops keys canonical datasets evalF cfg none st ti
      = Except.error PyExc.typeError := by
  simp only [trainLoopBody, handle_example_fst, handle_example_exLoss, emitProgress]
  rw [if_pos h]

/-- Claim C2: at every periodic evaluation, `num_stuck_evals` resets to 0 iff
the new mean dev fscore strictly exceeds `val_perf` (in which case `val_perf`
becomes that mean), and increments by 1 otherwise; and a loop-body pass from a
state not yet at the patience or step budget stops exactly when the updated
`num_stuck_evals` reaches the patience or the updated `global_steps` reaches
the step budget (`eval_per_k_steps * max_evals`, line 122). -/
theorem C2_early_stopping_invariant {P G O S SC : Type} (ops : TorchOps P G O S SC)
    (keys : List OptKey) (canonical : List (String × ℤ)) (datasets : List String)
    (evalF : String → ℤ → ℚ) (cfg : LoopConfig) (l : ℚ) (st : TState P G O S SC)
    (ti : TrainInfo)
    (hk : cfg.eval_per_k_steps ≠ 0)
    (hbudget : cfg.num_training_steps = cfg.eval_per_k_steps * cfg.max_evals)
    (hstuck : ti.num_stuck_evals < cfg.patience)
    (hsteps : ti.global_steps < cfg.num_training_steps) :
    ((periodic_model_eval canonical datasets evalF cfg.to_save_model ti).1.num_stuck_evals = 0
        ↔ ti.val_perf < meanDevFscore canonical datasets evalF) ∧
    (ti.val_perf < meanDevFscore canonical datasets evalF →
      (periodic_model_eval canonical datasets evalF cfg.to_save_model ti).1.val_perf
        = meanDevFscore canonical datasets evalF) ∧
    (¬ ti.val_perf < meanDevFscore canonical datasets evalF →
      (periodic_model_eval canonical datasets evalF cfg.to_save_model ti).1.num_stuck_evals
          = ti.num_stuck_evals + 1 ∧
      (periodic_model_eval canonical datasets evalF cfg.to_save_model ti).1.val_perf
          = ti.val_perf) ∧
    (∃ r, trainLoopBody ops keys canonical datasets evalF cfg (some l) st ti = Except.ok r ∧
      (r.stop = true ↔ (r.ti.num_stuck_evals = cfg.patience ∨
                        r.ti.global_steps = cfg.num_training_steps))) := by
  refine ⟨?_, ?_, ?_, ?_⟩
  · rw [periodic_stuck_eq]
    by_cases h : ti.val_perf < meanDevFscore canonical datasets evalF <;> simp [h]
  · intro h
    rw [periodic_val_perf_eq, if_pos h]
  · intro h
    rw [periodic_stuck_eq, periodic_val_perf_eq, if_neg h, if_neg h]
    exact ⟨rfl, rfl⟩
  · by_cases hb : cfg.eval_per_k_steps ≠ 0 ∧ (ti.global_steps + 1) % cfg.eval_per_k_steps = 0
    · refine ⟨_, trainLoopBody_some_eval ops keys canonical datasets evalF cfg l st ti hb, ?_⟩
      have hgs := periodic_global_steps canonical datasets evalF cfg.to_save_model
        { ti with global_steps := ti.global_steps + 1 }
      have hst := periodic_stuck_eq canonical datasets evalF cfg.to_save_model
        { ti with global_steps := ti.global_steps + 1 }
      simp only at hgs hst
      simp only [hgs, hst, Bool.or_eq_true, decide_eq_true_eq]
      by_cases himp : ti.val_perf < meanDevFscore canonical datasets evalF <;>
        simp only [himp, if_pos, if_neg, if_true, if_false, ite_true, ite_false] <;> omega
    · refine ⟨_, trainLoopBody_some_noeval ops keys canonical datasets evalF cfg l st ti hb, ?_⟩
      simp only [Bool.false_eq_true, false_iff]
      push_neg at hb
      rintro (h1 | h2)
      · omega
      · have h2s : ti.global_steps + 1 = cfg.num_training_steps := h2
        have hmod : (ti.global_steps + 1) % cfg.eval_per_k_steps = 0 := by
          rw [h2s, hbudget]
          exact Nat.mul_mod_right _ _
        exact absurd hmod (hb hk)

/-- Claim C8: the periodic evaluation evaluates each dev dataset at its
canonical cluster threshold, returns the arithmetic mean of the per-dataset
fscores, saves a "best" checkpoint exactly when the mean strictly exceeds
`val_perf`, saves a "last" checkpoint exactly when saving is configured
(regardless of improvement), and the loop body runs it exactly every
`eval_per_k_steps` global steps. -/
theorem C8_periodic_eval {P G O S SC : Type} (ops : TorchOps P G O S SC)
    (keys : List OptKey) (canonical : List (String × ℤ)) (datasets : List String)
    (evalF : String → ℤ → ℚ) (cfg : LoopConfig) (l : ℚ) (st : TState P G O S SC)
    (ti : TrainInfo) (d : String) (t : ℤ)
    (hd : d ∈ datasets) (ht : getVal canonical d = some t) :
    EvalEffect.evalDataset d t
      ∈ (periodic_model_eval canonical datasets evalF cfg.to_save_model ti).2.2 ∧
    (periodic_model_eval canonical datasets evalF cfg.to_save_model ti).2.1
      = meanDevFscore canonical datasets evalF ∧
    (EvalEffect.saveBest ∈ (periodic_model_eval canonical datasets evalF cfg.to_save_model ti).2.2
      ↔ ti.val_perf < meanDevFscore canonical datasets evalF) ∧
    (EvalEffect.saveLast ∈ (periodic_model_eval canonical datasets evalF cfg.to_save_model ti).2.2
      ↔ cfg.to_save_model = true) ∧
    (∃ r, trainLoopBody ops keys canonical datasets evalF cfg (some l) st ti = Except.ok r ∧
      (r.evalRan = true ↔
        (cfg.eval_per_k_steps ≠ 0 ∧ (ti.global_steps + 1) % cfg.eval_per_k_steps = 0)) ∧
      (r.evalRan = true →
        r.ti = (periodic_model_eval canonical datasets evalF cfg.to_save_model
                 { ti with global_steps := ti.global_steps + 1 }).1 ∧
        r.evalEffs = (periodic_model_eval canonical datasets evalF cfg.to_save_model
                 { ti with global_steps := ti.global_steps + 1 }).2.2)) := by
  refine ⟨periodic_evalDataset_mem canonical datasets evalF cfg.to_save_model ti d t hd ht,
    periodic_fscore_eq canonical datasets evalF cfg.to_save_model ti,
    periodic_saveBest_iff canonical datasets evalF cfg.to_save_model ti,
    periodic_saveLast_iff canonical datasets evalF cfg.to_save_model ti, ?_⟩
  by_cases hb : cfg.eval_per_k_steps ≠ 0 ∧ (ti.global_steps + 1) % cfg.eval_per_k_steps = 0
  · refine ⟨_, trainLoopBody_some_eval ops keys canonical datasets evalF cfg l st ti hb, ?_, ?_⟩
    · simpa using hb
    · intro _
      exact ⟨rfl, rfl⟩
  · refine ⟨_, trainLoopBody_some_noeval ops keys canonical datasets evalF cfg l st ti hb, ?_, ?_⟩
    · simpa using hb
    · intro hfalse
      exact absurd hfalse (by simp)

/-- Claim C10: when the forward pass returned an absent loss and the
incremented `global_steps` is a multiple of `update_frequency`, the progress
record applies the float format to `example_loss = None`, which raises
`TypeError` — the loop has no guard for an absent loss before formatting, so
the training loop body fails. -/
theorem C10_progress_record_crash {P G O S SC : Type} (ops : TorchOps P G O S SC)
    (keys : List OptKey) (canonical : List (String × ℤ)) (datasets : List String)
    (evalF : String → ℤ → ℚ) (cfg : LoopConfig) (st : TState P G O S SC) (ti : TrainInfo)
    (huf : (ti.global_steps + 1) % cfg.update_frequency = 0) :
    emitProgress none = Except.error PyExc.typeError ∧
    trainLoopBody ops keys canonical datasets evalF cfg none st ti
      = Except.error PyExc.typeError :=
  ⟨rfl, trainLoopBody_none_crash ops keys canonical datasets evalF cfg st ti huf⟩

/-! ## Checkpoint manager: `save_model` (457-480), `load_model` (440-455),
`setup_eval` (144-164)

Model weights are an association list from parameter names to opaque values
(`ℕ`); optimizer, scheduler, scaler and RNG states are opaque values (`ℕ`). -/

/-- The checkpoint slot kind: `'last'` (default) or `'best'`. -/
inductive ModelType where
  | best
  | last
deriving DecidableEq

/-- The experiment-side state read and written by the checkpoint manager. -/
structure ExpState where
  train_info : TrainInfo
  state_dict : List (String × ℕ)
  scaler : ℕ
  rng : ℕ
  np_rng : ℕ
  optState : OptKey → ℕ
  schedState : OptKey → ℕ

/-- The serialized checkpoint record (`save_dict`, lines 464-473). The scaler
entry is optional because `load_model` guards on its presence (line 450). -/
structure Checkpoint where
  train_info : TrainInfo
  model : List (String × ℕ)
  scaler : Option ℕ
  rng_state : ℕ
  np_rng_state : ℕ
  optimizer : List (OptKey × ℕ)
  scheduler : List (OptKey × ℕ)
  model_args : List (String × ℤ)

/-- Line 475: `param_groups = ['mem', 'doc'] if self.finetune else ['mem']`. -/
def activeParamGroups (finetune : Bool) : List OptKey :=
  if finetune then [OptKey.mem, OptKey.doc] else [OptKey.mem]

/-- Lines 457-480, `save_model`: always serialize `train_info`, the scaler
state, both RNG states and the hyperparameter record `model_args`; drop every
weight whose key contains `'lm_encoder.'` when not fine-tuning (lines
460-463); serialize optimizer and scheduler state for every active parameter
group unless the save is of `'best'` type (lines 474-478). -/
def save_model (st : ExpState) (finetune : Bool) (model_args : List (String × ℤ))
    (model_type : ModelType) : Checkpoint :=
  { train_info := st.train_info,
    model := if finetune then st.state_dict
      else st.state_dict.filter (fun p => !(strHasSub p.1 "lm_encoder.")),
    scaler := some st.scaler,
    rng_state := st.rng,
    np_rng_state := st.np_rng,
    optimizer := if model_type = ModelType.best then []
      else (activeParamGroups finetune).map (fun k => (k, st.optState k)),
    scheduler := if model_type = ModelType.best then []
      else (activeParamGroups finetune).map (fun k => (k, st.schedState k)),
    model_args := model_args }

/-- `model.load_state_dict(checkpoint['model'], strict=False)` (line 442):
update the weights present in the checkpoint, keep the rest, ignore checkpoint
keys the model does not have. -/
def loadLenient (cur ck : List (String × ℕ)) : List (String × ℕ) :=
  cur.map (fun p =>
    match getVal ck p.1 with
    | some v => (p.1, v)
    | none => p)

/-- Lines 440-455, `load_model`: restore weights leniently; unless the load is
of `'best'` type, restore optimizer and scheduler state for every group
present in the checkpoint and the scaler state if present (the source indexes
`checkpoint['scheduler']` by the optimizer's groups; a checkpoint violating
that alignment would raise `KeyError`, which saves never produce); then
unconditionally overwrite `train_info` and both RNG states (lines 453-455). -/
def load_model (st : ExpState) (ckpt : Checkpoint) (model_type : ModelType) : ExpState :=
  let st1 : ExpState := { st with state_dict := loadLenient st.state_dict ckpt.model }
  let st2 : ExpState :=
    if model_type = ModelType.best then st1
    else
      let st3 : ExpState := { st1 with
        optState := fun k =>
          match getVal ckpt.optimizer k with
          | some v => v
          | none => st1.optState k,
        schedState := fun k =>
          match getVal ckpt.optimizer k with
          | some _ => (getVal ckpt.scheduler k).getD (st1.schedState k)
          | none => st1.schedState k }
      match ckpt.scaler with
      | some s => { st3 with scaler := s }
      | none => st3
  { st2 with train_info := ckpt.train_info, rng := ckpt.rng_state, np_rng := ckpt.np_rng_state }

/-- The runtime knobs of the model touched by `setup_eval` (lines 153-164). -/
structure Knobs where
  max_ents : Option ℕ
  use_gold_ments : Bool
  max_span_width : ℕ
  top_span_ratio : ℚ
  use_topk : Bool

/-- The evaluation-time configuration overrides of the experiment
(`self.eval_max_ents`, `self.use_gold_ments`, `self.max_span_width`,
`self.top_span_ratio`, `self.use_topk`). -/
structure EvalOverrides where
  eval_max_ents : Option ℕ
  use_gold_ments : Option Bool
  max_span_width : Option ℕ
  top_span_ratio : Option ℚ
  use_topk : Bool

/-- Lines 144-164, `setup_eval`: merge the supplied arguments with the
checkpoint's persisted `model_args` (checkpoint winning, lines 147-148), build
the model from the merged record (`pick_controller` is the external model
factory), then apply each configured override on top (lines 153-164). -/
def setup_eval (pick : List (String × ℤ) → Knobs) (supplied ckptArgs : List (String × ℤ))
    (ov : EvalOverrides) : Knobs :=
  let merged := dictUpdate supplied ckptArgs
  let m := pick merged
  let m := match ov.eval_max_ents with
    | some v => { m with max_ents := some v }
    | none => m
  let m := match ov.use_gold_ments with
    | some b => { m with use_gold_ments := b }
    | none => m
  let m := match ov.max_span_width with
    | some v => { m with max_span_width := v }
    | none => m
  let m := match ov.top_span_ratio with
    | some v => { m with top_span_ratio := v }
    | none => m
  if ov.use_topk then { m with use_topk := ov.use_topk } else m

/-! ## The per-example prediction log (lines 340-354) -/

/-- A Python value held in an example record or in the logged record: a torch
tensor, or one of the JSON-serializable shapes met there (strings, numbers,
mention lists, score lists, action lists, cluster lists, subtoken maps). -/
inductive LogVal where
  | tensor : ℕ → LogVal
  | str : String → LogVal
  | nat : ℕ → LogVal
  | mentions : List (ℕ × ℕ) → LogVal
  | scores : List ℚ → LogVal
  | actions : List (ℕ × String) → LogVal
  | clusters : List (List (ℕ × ℕ)) → LogVal
  | natList : List ℕ → LogVal
deriving DecidableEq

/-- Python `isinstance(v, torch.Tensor)`. -/
def LogVal.isTensor : LogVal → Bool
  | LogVal.tensor _ => true
  | _ => false

/-- Lines 340-352: build `log_example` from a copy of the example dict —
add `pred_mentions` and `mention_scores`, add `raw_predicted_clusters` only
when the cluster threshold differs from 1, add `pred_actions` and
`predicted_clusters`, delete `tensorized_sent` (present in every tensorized
example), and drop every remaining tensor-valued field. The five added values
come from the model's inference outputs. -/
def buildLogExample (ex : List (String × LogVal)) (cluster_threshold : ℤ)
    (pred_mentions mention_scores raw_predicted_clusters pred_actions
      predicted_clusters : LogVal) : List (String × LogVal) :=
  let le := ex
  let le := setKey le "pred_mentions" pred_mentions
  let le := setKey le "mention_scores" mention_scores
  let le := if cluster_threshold ≠ 1
    then setKey le "raw_predicted_clusters" raw_predicted_clusters else le
  let le := setKey le "pred_actions" pred_actions
  let le := setKey le "predicted_clusters" predicted_clusters
  let le := delKey le "tensorized_sent"
  le.filter (fun p => !(p.2.isTensor))

theorem getVal_logTail_some (d : List (String × LogVal)) (k : String) (v : LogVal)
    (hv : getVal d k = some v) (ht : v.isTensor = false) (hk : k ≠ "tensorized_sent") :
    getVal ((delKey d "tensorized_sent").filter (fun p => !(p.2.isTensor))) k = some v := by
  apply getVal_filter_some
  · rw [getVal_delKey_ne d "tensorized_sent" k hk]
    exact hv
  · simp [ht]

theorem getVal_logTail_none (d : List (String × LogVal)) (k : String)
    (hv : getVal d k = none) :
    getVal ((delKey d "tensorized_sent").filter (fun p => !(p.2.isTensor))) k = none := by
  apply getVal_filter_none
  exact getVal_filter_none _ d k hv

/-- A concrete canonical-threshold dict. -/
def canonA : List (String × ℤ) := [("litbank", 1)]

/-- A concrete dev dataset list. -/
def dsA : List String := ["litbank"]

/-- A concrete per-dataset evaluation function. -/
def evalF1 : String → ℤ → ℚ := fun _ _ => 1

/-- A concrete loop configuration with an evaluation every step. -/
def cfgA : LoopConfig :=
  { patience := 2, eval_per_k_steps := 1, num_training_steps := 3, max_evals := 3,
    update_frequency := 1, to_save_model := false, max_gradient_norm := 1 }

/-- A fresh `train_info`. -/
def tiA : TrainInfo := { val_perf := 0, global_steps := 0, num_stuck_evals := 0 }

/-- A concrete loop configuration with progress records every 3 steps. -/
def cfgB : LoopConfig :=
  { patience := 2, eval_per_k_steps := 0, num_training_steps := 0, max_evals := 0,
    update_frequency := 3, to_save_model := false, max_gradient_norm := 1 }

/-- A `train_info` two steps in. -/
def tiB : TrainInfo := { val_perf := 0, global_steps := 2, num_stuck_evals := 0 }

/-- Claim C2 witness: the early-stopping invariant at a concrete state. -/
theorem C2_early_stopping_invariant_witness :
    ((periodic_model_eval canonA dsA evalF1 cfgA.to_save_model tiA).1.num_stuck_evals = 0
        ↔ tiA.val_perf < meanDevFscore canonA dsA evalF1) ∧
    (tiA.val_perf < meanDevFscore canonA dsA evalF1 →
      (periodic_model_eval canonA dsA evalF1 cfgA.to_save_model tiA).1.val_perf
        = meanDevFscore canonA dsA evalF1) ∧
    (¬ tiA.val_perf < meanDevFscore canonA dsA evalF1 →
      (periodic_model_eval canonA dsA evalF1 cfgA.to_save_model tiA).1.num_stuck_evals
          = tiA.num_stuck_evals + 1 ∧
      (periodic_model_eval canonA dsA evalF1 cfgA.to_save_model tiA).1.val_perf
          = tiA.val_perf) ∧
    (∃ r, trainLoopBody trivOps [OptKey.mem] canonA dsA evalF1 cfgA (some 0) trivSt tiA
        = Except.ok r ∧
      (r.stop = true ↔ (r.ti.num_stuck_evals = cfgA.patience ∨
                        r.ti.global_steps = cfgA.num_training_steps))) :=
  C2_early_stopping_invariant trivOps [OptKey.mem] canonA dsA evalF1 cfgA 0 trivSt tiA
    (by decide) (by decide) (by decide) (by decide)

/-- Claim C8 witness: the periodic-evaluation properties at a concrete state. -/
theorem C8_periodic_eval_witness :
    EvalEffect.evalDataset "litbank" 1
      ∈ (periodic_model_eval canonA dsA evalF1 cfgA.to_save_model tiA).2.2 ∧
    (periodic_model_eval canonA dsA evalF1 cfgA.to_save_model tiA).2.1
      = meanDevFscore canonA dsA evalF1 ∧
    (EvalEffect.saveBest ∈ (periodic_model_eval canonA dsA evalF1 cfgA.to_save_model tiA).2.2
      ↔ tiA.val_perf < meanDevFscore canonA dsA evalF1) ∧
    (EvalEffect.saveLast ∈ (periodic_model_eval canonA dsA evalF1 cfgA.to_save_model tiA).2.2
      ↔ cfgA.to_save_model = true) ∧
    (∃ r, trainLoopBody trivOps [OptKey.mem] canonA dsA evalF1 cfgA (some 0) trivSt tiA
        = Except.ok r ∧
      (r.evalRan = true ↔
        (cfgA.eval_per_k_steps ≠ 0 ∧ (tiA.global_steps + 1) % cfgA.eval_per_k_steps = 0)) ∧
      (r.evalRan = true →
        r.ti = (periodic_model_eval canonA dsA evalF1 cfgA.to_save_model
                 { tiA with global_steps := tiA.global_steps + 1 }).1 ∧
        r.evalEffs = (periodic_model_eval canonA dsA evalF1 cfgA.to_save_model
                 { tiA with global_steps := tiA.global_steps + 1 }).2.2)) :=
  C8_periodic_eval trivOps [OptKey.mem] canonA dsA evalF1 cfgA 0 trivSt tiA "litbank" 1
    (by decide) (by decide)

/-- Claim C10 witness: the progress-record crash at a concrete absent-loss
step whose incremented step count hits the update frequency. -/
theorem C10_progress_record_crash_witness :
    emitProgress none = Except.error PyExc.typeError ∧
    trainLoopBody trivOps [OptKey.mem] canonA dsA evalF1 cfgB none trivSt tiB
      = Except.error PyExc.typeError :=
  C10_progress_record_crash trivOps [OptKey.mem] canonA dsA evalF1 cfgB trivSt tiB (by decide)

/-- Claim C6: every save writes `train_info`, the scaler state, both RNG
states and the hyperparameter record; with fine-tuning disabled every encoder
weight (key containing `'lm_encoder.'`) is excluded from the saved weights
(and every other weight is kept); optimizer and scheduler state for every
active parameter group are included exactly when the save is of `'last'`
type. -/
theorem C6_save_contents (st : ExpState) (finetune : Bool)
    (model_args : List (String × ℤ)) (model_type : ModelType) :
    (save_model st finetune model_args model_type).train_info = st.train_info ∧
    (save_model st finetune model_args model_type).scaler = some st.scaler ∧
    (save_model st finetune model_args model_type).rng_state = st.rng ∧
    (save_model st finetune model_args model_type).np_rng_state = st.np_rng ∧
    (save_model st finetune model_args model_type).model_args = model_args ∧
    (∀ p ∈ (save_model st false model_args model_type).model,
      strHasSub p.1 "lm_encoder." = false) ∧
    (∀ p ∈ st.state_dict, strHasSub p.1 "lm_encoder." = false →
      p ∈ (save_model st false model_args model_type).model) ∧
    ((save_model st finetune model_args model_type).optimizer
        = (activeParamGroups finetune).map (fun k => (k, st.optState k))
      ↔ model_type = ModelType.last) ∧
    ((save_model st finetune model_args model_type).scheduler
        = (activeParamGroups finetune).map (fun k => (k, st.schedState k))
      ↔ model_type = ModelType.last) := by
  refine ⟨rfl, rfl, rfl, rfl, rfl, ?_, ?_, ?_, ?_⟩
  · intro p hp
    simp only [save_model, Bool.false_eq_true, if_false, List.mem_filter,
      Bool.not_eq_eq_eq_not, Bool.not_true] at hp
    exact hp.2
  · intro p hp hs
    simp only [save_model, Bool.false_eq_true, if_false, List.mem_filter]
    exact ⟨hp, by simp [hs]⟩
  · cases model_type <;> cases finetune <;> simp [save_model, activeParamGroups]
  · cases model_type <;> cases finetune <;> simp [save_model, activeParamGroups]

/-- A concrete experiment state for checkpoint claims. -/
def stC : ExpState :=
  { train_info := { val_perf := 0, global_steps := 0, num_stuck_evals := 0 },
    state_dict := [("lm_encoder.w", 3), ("mem.w", 4)],
    scaler := 7, rng := 3, np_rng := 4,
    optState := fun _ => 5, schedState := fun _ => 6 }

/-- A concrete checkpoint whose `train_info` and RNG states differ from
`stC`'s. -/
def ckptC : Checkpoint :=
  { train_info := { val_perf := 0, global_steps := 9, num_stuck_evals := 2 },
    model := [("mem.w", 2)], scaler := some 8, rng_state := 10, np_rng_state := 11,
    optimizer := [], scheduler := [], model_args := [("seed", 42)] }

/-- Claim C6 witness: the save contents at a concrete non-fine-tuned state. -/
theorem C6_save_contents_witness :
    (save_model stC false [("seed", 42)] ModelType.last).train_info = stC.train_info ∧
    (save_model stC false [("seed", 42)] ModelType.last).scaler = some stC.scaler ∧
    (save_model stC false [("seed", 42)] ModelType.last).rng_state = stC.rng ∧
    (save_model stC false [("seed", 42)] ModelType.last).np_rng_state = stC.np_rng ∧
    (save_model stC false [("seed", 42)] ModelType.last).model_args = [("seed", 42)] ∧
    (∀ p ∈ (save_model stC false [("seed", 42)] ModelType.last).model,
      strHasSub p.1 "lm_encoder." = false) ∧
    (∀ p ∈ stC.state_dict, strHasSub p.1 "lm_encoder." = false →
      p ∈ (save_model stC false [("seed", 42)] ModelType.last).model) ∧
    ((save_model stC false [("seed", 42)] ModelType.last).optimizer
        = (activeParamGroups false).map (fun k => (k, stC.optState k))
      ↔ ModelType.last = ModelType.last) ∧
    ((save_model stC false [("seed", 42)] ModelType.last).scheduler
        = (activeParamGroups false).map (fun k => (k, stC.schedState k))
      ↔ ModelType.last = ModelType.last) :=
  C6_save_contents stC false [("seed", 42)] ModelType.last

/-- Claim C4, counterexample: `load_model` with `model_type='best'` does
modify `TrainInfo` and the RNG state — lines 453-455 run unconditionally, so
the checkpoint's `train_info` and RNG states overwrite the experiment's. -/
theorem C4_best_load_counterexample :
    (load_model stC ckptC ModelType.best).train_info ≠ stC.train_info ∧
    (load_model stC ckptC ModelType.best).rng ≠ stC.rng := by
  constructor
  · intro h
    have h2 := congrArg TrainInfo.global_steps h
    simp [load_model, stC, ckptC] at h2
  · intro h
    simp [load_model, stC, ckptC] at h

/-- Claim C4, amended: a `'best'`-type `load_model` restores the model weights
leniently and leaves optimizer, scheduler and scaler state unchanged, but
additionally overwrites `TrainInfo` and both RNG states with the checkpoint's
values; hyperparameters are restored on the evaluation-setup path
(`setup_eval`), where the persisted `model_args` take precedence over the
supplied arguments and the configured overrides (max entity count,
gold-mention usage, mention-detection thresholds) are applied on top. -/
theorem C4_best_load_amended (st : ExpState) (ckpt : Checkpoint)
    (pick : List (String × ℤ) → Knobs) (supplied ckptArgs : List (String × ℤ))
    (ov : EvalOverrides) :
    (load_model st ckpt ModelType.best).optState = st.optState ∧
    (load_model st ckpt ModelType.best).schedState = st.schedState ∧
    (load_model st ckpt ModelType.best).scaler = st.scaler ∧
    (load_model st ckpt ModelType.best).state_dict = loadLenient st.state_dict ckpt.model ∧
    (load_model st ckpt ModelType.best).train_info = ckpt.train_info ∧
    (load_model st ckpt ModelType.best).rng = ckpt.rng_state ∧
    (load_model st ckpt ModelType.best).np_rng = ckpt.np_rng_state ∧
    (∀ v, ov.eval_max_ents = some v →
      (setup_eval pick supplied ckptArgs ov).max_ents = some v) ∧
    (∀ b, ov.use_gold_ments = some b →
      (setup_eval pick supplied ckptArgs ov).use_gold_ments = b) ∧
    (∀ w, ov.max_span_width = some w →
      (setup_eval pick supplied ckptArgs ov).max_span_width = w) ∧
    (∀ q, ov.top_span_ratio = some q →
      (setup_eval pick supplied ckptArgs ov).top_span_ratio = q) ∧
    (ov.use_topk = true → (setup_eval pick supplied ckptArgs ov).use_topk = true) ∧
    (∀ k v, (ckptArgs.map Prod.fst).Nodup → getVal ckptArgs k = some v →
      getVal (dictUpdate supplied ckptArgs) k = some v) := by
  refine ⟨by simp [load_model], by simp [load_model], by simp [load_model],
    by simp [load_model], by simp [load_model], by simp [load_model], by simp [load_model],
    ?_, ?_, ?_, ?_, ?_,
    fun k v hnd hv => getVal_dictUpdate_of_some ckptArgs supplied k v hnd hv⟩
  · intro v hv
    cases hgm : ov.use_gold_ments <;> cases hmsw : ov.max_span_width <;>
      cases htsr : ov.top_span_ratio <;> cases hutk : ov.use_topk <;>
      simp [setup_eval, hv, hgm, hmsw, htsr, hutk]
  · intro b hb
    cases hme : ov.eval_max_ents <;> cases hmsw : ov.max_span_width <;>
      cases htsr : ov.top_span_ratio <;> cases hutk : ov.use_topk <;>
      simp [setup_eval, hme, hb, hmsw, htsr, hutk]
  · intro w hw
    cases hme : ov.eval_max_ents <;> cases hgm : ov.use_gold_ments <;>
      cases htsr : ov.top_span_ratio <;> cases hutk : ov.use_topk <;>
      simp [setup_eval, hme, hgm, hw, htsr, hutk]
  · intro q hq
    cases hme : ov.eval_max_ents <;> cases hgm : ov.use_gold_ments <;>
      cases hmsw : ov.max_span_width <;> cases hutk : ov.use_topk <;>
      simp [setup_eval, hme, hgm, hmsw, hq, hutk]
  · intro hu
    cases hme : ov.eval_max_ents <;> cases hgm : ov.use_gold_ments <;>
      cases hmsw : ov.max_span_width <;> cases htsr : ov.top_span_ratio <;>
      simp [setup_eval, hme, hgm, hmsw, htsr, hu]

/-- A concrete model factory for the eval-setup witness. -/
def pickK : List (String × ℤ) → Knobs :=
  fun _ => { max_ents := none, use_gold_ments := false, max_span_width := 10,
             top_span_ratio := 1, use_topk := false }

/-- Concrete evaluation overrides, all configured. -/
def ovC : EvalOverrides :=
  { eval_max_ents := some 3, use_gold_ments := some true, max_span_width := some 20,
    top_span_ratio := some 2, use_topk := true }

/-- Claim C4 witness: the amended best-load and eval-setup behaviour at a
concrete state, checkpoint and override set. -/
theorem C4_best_load_amended_witness :
    (load_model stC ckptC ModelType.best).optState = stC.optState ∧
    (load_model stC ckptC ModelType.best).schedState = stC.schedState ∧
    (load_model stC ckptC ModelType.best).scaler = stC.scaler ∧
    (load_model stC ckptC ModelType.best).state_dict = loadLenient stC.state_dict ckptC.model ∧
    (load_model stC ckptC ModelType.best).train_info = ckptC.train_info ∧
    (load_model stC ckptC ModelType.best).rng = ckptC.rng_state ∧
    (load_model stC ckptC ModelType.best).np_rng = ckptC.np_rng_state ∧
    (∀ v, ovC.eval_max_ents = some v →
      (setup_eval pickK [("seed", 1)] [("seed", 42)] ovC).max_ents = some v) ∧
    (∀ b, ovC.use_gold_ments = some b →
      (setup_eval pickK [("seed", 1)] [("seed", 42)] ovC).use_gold_ments = b) ∧
    (∀ w, ovC.max_span_width = some w →
      (setup_eval pickK [("seed", 1)] [("seed", 42)] ovC).max_span_width = w) ∧
    (∀ q, ovC.top_span_ratio = some q →
      (setup_eval pickK [("seed", 1)] [("seed", 42)] ovC).top_span_ratio = q) ∧
    (ovC.use_topk = true → (setup_eval pickK [("seed", 1)] [("seed", 42)] ovC).use_topk = true) ∧
    (∀ (k : String) (v : ℤ), (([("seed", 42)] : List (String × ℤ)).map Prod.fst).Nodup →
      getVal ([("seed", 42)] : List (String × ℤ)) k = some v →
      getVal (dictUpdate ([("seed", 1)] : List (String × ℤ)) [("seed", 42)]) k = some v) :=
  C4_best_load_amended stC ckptC pickK [("seed", 1)] [("seed", 42)] ovC

/-- Claim C5 witness: the amended clipping property at a concrete step. -/
theorem C5_clip_independent_shared_norm_witness :
    Effect.clipGradNorm ClipGroup.encoder 3
        ∈ (handle_example trivOps [OptKey.mem] 3 (some 2) 0 trivSt).2.2.2 ∧
    Effect.clipGradNorm ClipGroup.task 3
        ∈ (handle_example trivOps [OptKey.mem] 3 (some 2) 0 trivSt).2.2.2 ∧
    (∀ g n,
      Effect.clipGradNorm g n ∈ (handle_example trivOps [OptKey.mem] 3 (some 2) 0 trivSt).2.2.2 →
      n = 3) :=
  C5_clip_independent_shared_norm trivOps [OptKey.mem] 3 2 0 trivSt

/-- Claim C9: for every evaluated document whose example record carries a
(non-tensor) document identifier and no pre-existing `raw_predicted_clusters`
key, and whose model outputs are not tensors, the logged record contains the
document identifier, the predicted clusters, the predicted mentions, the
per-mention scores and the predicted action sequence; it contains the
pre-filter raw clusters iff the cluster threshold differs from 1; and no
tensor-valued field appears in it. -/
theorem C9_prediction_log (ex : List (String × LogVal)) (cluster_threshold : ℤ)
    (dk : String) (pm ms rc pa pc : LogVal)
    (hdoc : getVal ex "doc_key" = some (LogVal.str dk))
    (hraw : getVal ex "raw_predicted_clusters" = none)
    (hpm : pm.isTensor = false) (hms : ms.isTensor = false) (hrc : rc.isTensor = false)
    (hpa : pa.isTensor = false) (hpc : pc.isTensor = false) :
    getVal (buildLogExample ex cluster_threshold pm ms rc pa pc) "doc_key"
      = some (LogVal.str dk) ∧
    getVal (buildLogExample ex cluster_threshold pm ms rc pa pc) "pred_mentions" = some pm ∧
    getVal (buildLogExample ex cluster_threshold pm ms rc pa pc) "mention_scores" = some ms ∧
    getVal (buildLogExample ex cluster_threshold pm ms rc pa pc) "pred_actions" = some pa ∧
    getVal (buildLogExample ex cluster_threshold pm ms rc pa pc) "predicted_clusters"
      = some pc ∧
    (getVal (buildLogExample ex cluster_threshold pm ms rc pa pc) "raw_predicted_clusters"
      = some rc ↔ cluster_threshold ≠ 1) ∧
    (∀ p ∈ buildLogExample ex cluster_threshold pm ms rc pa pc, p.2.isTensor = false) := by
  by_cases hth : cluster_threshold = 1
  · subst hth
    simp only [buildLogExample, ne_eq, not_true_eq_false, if_false, ite_false]
    refine ⟨?_, ?_, ?_, ?_, ?_, ?_, ?_⟩
    · apply getVal_logTail_some _ _ _ ?_ (by simp [LogVal.isTensor]) (by decide)
      rw [getVal_setKey_ne _ "predicted_clusters" "doc_key" _ (by decide),
          getVal_setKey_ne _ "pred_actions" "doc_key" _ (by decide),
          getVal_setKey_ne _ "mention_scores" "doc_key" _ (by decide),
          getVal_setKey_ne _ "pred_mentions" "doc_key" _ (by decide)]
      exact hdoc
    · apply getVal_logTail_some _ _ _ ?_ hpm (by decide)
      rw [getVal_setKey_ne _ "predicted_clusters" "pred_mentions" _ (by decide),
          getVal_setKey_ne _ "pred_actions" "pred_mentions" _ (by decide),
          getVal_setKey_ne _ "mention_scores" "pred_mentions" _ (by decide)]
      exact getVal_setKey_self ex "pred_mentions" pm
    · apply getVal_logTail_some _ _ _ ?_ hms (by decide)
      rw [getVal_setKey_ne _ "predicted_clusters" "mention_scores" _ (by decide),
          getVal_setKey_ne _ "pred_actions" "mention_scores" _ (by decide)]
      exact getVal_setKey_self _ "mention_scores" ms
    · apply getVal_logTail_some _ _ _ ?_ hpa (by decide)
      rw [getVal_setKey_ne _ "predicted_clusters" "pred_actions" _ (by decide)]
      exact getVal_setKey_self _ "pred_actions" pa
    · exact getVal_logTail_some _ _ _ (getVal_setKey_self _ "predicted_clusters" pc)
        hpc (by decide)
    · have hnone : getVal ((delKey (setKey (setKey (setKey (setKey ex
          "pred_mentions" pm) "mention_scores" ms) "pred_actions" pa)
          "predicted_clusters" pc) "tensorized_sent").filter (fun p => !(p.2.isTensor)))
          "raw_predicted_clusters" = none := by
        apply getVal_logTail_none
        rw [getVal_setKey_ne _ "predicted_clusters" "raw_predicted_clusters" _ (by decide),
            getVal_setKey_ne _ "pred_actions" "raw_predicted_clusters" _ (by decide),
            getVal_setKey_ne _ "mention_scores" "raw_predicted_clusters" _ (by decide),
            getVal_setKey_ne _ "pred_mentions" "raw_predicted_clusters" _ (by decide)]
        exact hraw
      simp [hnone]
    · intro p hp
      have hm := List.mem_filter.mp hp
      simpa using hm.2
  · simp only [buildLogExample, ne_eq, hth, not_false_eq_true, if_true, ite_true]
    refine ⟨?_, ?_, ?_, ?_, ?_, ?_, ?_⟩
    · apply getVal_logTail_some _ _ _ ?_ (by simp [LogVal.isTensor]) (by decide)
      rw [getVal_setKey_ne _ "predicted_clusters" "doc_key" _ (by decide),
          getVal_setKey_ne _ "pred_actions" "doc_key" _ (by decide),
          getVal_setKey_ne _ "raw_predicted_clusters" "doc_key" _ (by decide),
          getVal_setKey_ne _ "mention_scores" "doc_key" _ (by decide),
          getVal_setKey_ne _ "pred_mentions" "doc_key" _ (by decide)]
      exact hdoc
    · apply getVal_logTail_some _ _ _ ?_ hpm (by decide)
      rw [getVal_setKey_ne _ "predicted_clusters" "pred_mentions" _ (by decide),
          getVal_setKey_ne _ "pred_actions" "pred_mentions" _ (by decide),
          getVal_setKey_ne _ "raw_predicted_clusters" "pred_mentions" _ (by decide),
          getVal_setKey_ne _ "mention_scores" "pred_mentions" _ (by decide)]
      exact getVal_setKey_self ex "pred_mentions" pm
    · apply getVal_logTail_some _ _ _ ?_ hms (by decide)
      rw [getVal_setKey_ne _ "predicted_clusters" "mention_scores" _ (by decide),
          getVal_setKey_ne _ "pred_actions" "mention_scores" _ (by decide),
          getVal_setKey_ne _ "raw_predicted_clusters" "mention_scores" _ (by decide)]
      exact getVal_setKey_self _ "mention_scores" ms
    · apply getVal_logTail_some _ _ _ ?_ hpa (by decide)
      rw [getVal_setKey_ne _ "predicted_clusters" "pred_actions" _ (by decide)]
      exact getVal_setKey_self _ "pred_actions" pa
    · exact getVal_logTail_some _ _ _ (getVal_setKey_self _ "predicted_clusters" pc)
        hpc (by decide)
    · have hsome : getVal ((delKey (setKey (setKey (setKey (setKey (setKey ex
          "pred_mentions" pm) "mention_scores" ms) "raw_predicted_clusters" rc)
          "pred_actions" pa) "predicted_clusters" pc) "tensorized_sent").filter
          (fun p => !(p.2.isTensor))) "raw_predicted_clusters" = some rc := by
        apply getVal_logTail_some _ _ _ ?_ hrc (by decide)
        rw [getVal_setKey_ne _ "predicted_clusters" "raw_predicted_clusters" _ (by decide),
            getVal_setKey_ne _ "pred_actions" "raw_predicted_clusters" _ (by decide)]
        exact getVal_setKey_self _ "raw_predicted_clusters" rc
      simp [hsome, hth]
    · intro p hp
      have hm := List.mem_filter.mp hp
      simpa using hm.2

/-- A concrete tensorized example record. -/
def exC : List (String × LogVal) :=
  [("doc_key", LogVal.str "doc1"), ("clusters", LogVal.clusters [[(0, 1)]]),
   ("subtoken_map", LogVal.natList [0, 1]), ("tensorized_sent", LogVal.tensor 0)]

/-- Claim C9 witness: the logged record of a concrete document at cluster
threshold 2. -/
theorem C9_prediction_log_witness :
    getVal (buildLogExample exC 2 (LogVal.mentions [(0, 1)]) (LogVal.scores [1])
        (LogVal.clusters [[(0, 1)]]) (LogVal.actions [(0, "c")])
        (LogVal.clusters [[(0, 1)]])) "doc_key" = some (LogVal.str "doc1") ∧
    getVal (buildLogExample exC 2 (LogVal.mentions [(0, 1)]) (LogVal.scores [1])
        (LogVal.clusters [[(0, 1)]]) (LogVal.actions [(0, "c")])
        (LogVal.clusters [[(0, 1)]])) "pred_mentions" = some (LogVal.mentions [(0, 1)]) ∧
    getVal (buildLogExample exC 2 (LogVal.mentions [(0, 1)]) (LogVal.scores [1])
        (LogVal.clusters [[(0, 1)]]) (LogVal.actions [(0, "c")])
        (LogVal.clusters [[(0, 1)]])) "mention_scores" = some (LogVal.scores [1]) ∧
    getVal (buildLogExample exC 2 (LogVal.mentions [(0, 1)]) (LogVal.scores [1])
        (LogVal.clusters [[(0, 1)]]) (LogVal.actions [(0, "c")])
        (LogVal.clusters [[(0, 1)]])) "pred_actions" = some (LogVal.actions [(0, "c")]) ∧
    getVal (buildLogExample exC 2 (LogVal.mentions [(0, 1)]) (LogVal.scores [1])
        (LogVal.clusters [[(0, 1)]]) (LogVal.actions [(0, "c")])
        (LogVal.clusters [[(0, 1)]])) "predicted_clusters"
      = some (LogVal.clusters [[(0, 1)]]) ∧
    (getVal (buildLogExample exC 2 (LogVal.mentions [(0, 1)]) (LogVal.scores [1])
        (LogVal.clusters [[(0, 1)]]) (LogVal.actions [(0, "c")])
        (LogVal.clusters [[(0, 1)]])) "raw_predicted_clusters"
      = some (LogVal.clusters [[(0, 1)]]) ↔ (2 : ℤ) ≠ 1) ∧
    (∀ p ∈ buildLogExample exC 2 (LogVal.mentions [(0, 1)]) (LogVal.scores [1])
        (LogVal.clusters [[(0, 1)]]) (LogVal.actions [(0, "c")])
        (LogVal.clusters [[(0, 1)]]), p.2.isTensor = false) :=
  C9_prediction_log exC 2 "doc1" (LogVal.mentions [(0, 1)]) (LogVal.scores [1])
    (LogVal.clusters [[(0, 1)]]) (LogVal.actions [(0, "c")]) (LogVal.clusters [[(0, 1)]])
    (by decide) (by decide) rfl rfl rfl rfl rfl

end FastCoref
